import Mathlib

/-!
Verification of the workflow-pipeline subsystem of the `vertex` backend:
the flow state machine exposed by the flow router
(`apps/api/api/v1/routers/flows.py`), the Celery stage chain
(`apps/api/worker/celery_worker.py`), and the WebSocket connection
manager and relay loop (`apps/api/api/v1/routers/ws.py`).

The embedding is shallow: each Python function that the properties
concern is translated into a total Lean function over explicit state.
Database rows become entries of a list carried in an `ApiState`;
raising `HTTPException` before any commit becomes returning the input
state unchanged together with an error value; enqueueing a Celery task
becomes appending to an `enqueued` list; the non-deterministic external
LLM call `generate_content` becomes an oracle parameter of type
`String → Except String String` (`.error` models a raised exception).
-/

set_option autoImplicit false
set_option maxRecDepth 4000

namespace Vertex

/-- Status enum `FlowStatus` from `routers/flows.py`. -/
inductive FlowStatus where
  | pending
  | running
  | completed
  | failed
  | cancelled
deriving DecidableEq, Repr

/-- The flow record as the flow router reads and writes it: the columns of
the `Task` row that `create_flow` populates and the other endpoints
mutate.  Identifiers and timestamps are abstracted to `Nat`;
the JSON `parameters` map is an association list. -/
structure Flow where
  id : Nat
  projectId : Nat
  flowType : String
  prompt : String
  status : FlowStatus
  parameters : List (String × String)
  priority : Int
  createdAt : Nat
  startedAt : Option Nat
  completedAt : Option Nat
  result : Option String
  error : Option String
  executionTime : Option Nat
deriving DecidableEq, Repr

/-- Errors an endpoint can raise (`HTTPException` in the source):
404 "not found" and 400 "bad request" with their detail strings. -/
inductive ApiError where
  | notFound (detail : String)
  | badRequest (detail : String)
deriving DecidableEq, Repr

/-- The state an endpoint call can observe and mutate: the `projects`
table (only existence of an id matters to the router), the flow rows,
and the Celery tasks enqueued so far (`run_flow_task.delay` arguments:
flow id, project id, prompt). -/
structure ApiState where
  projects : List Nat
  flows : List Flow
  enqueued : List (Nat × Nat × String)
deriving DecidableEq, Repr

/-- Lookup `session.get(Task, flow_id)`: look a flow up by primary key. -/
def findFlow : List Flow → Nat → Option Flow
  | [], _ => none
  | f :: rest, i => if f.id = i then some f else findFlow rest i

/-- Committing a mutated row: replace the row with the same primary key. -/
def setFlow : List Flow → Flow → List Flow
  | [], _ => []
  | g :: rest, f => if g.id = f.id then f :: rest else g :: setFlow rest f

/-- Body of `FlowCreate`. -/
structure FlowCreate where
  projectId : Nat
  flowType : String
  prompt : String
  parameters : Option (List (String × String))
  priority : Option Int
deriving DecidableEq, Repr

/-- Body of `FlowUpdate`. -/
structure FlowUpdate where
  status : Option FlowStatus
  parameters : Option (List (String × String))
  priority : Option Int
deriving DecidableEq, Repr

/-- Endpoint `create_flow` (POST /): verify the project exists (404 before any row
is created or task enqueued), then insert a `pending` flow and enqueue
`run_flow_task`.  `newId` stands for the generated UUID, `now` for the
row's creation timestamp. -/
def create_flow (st : ApiState) (c : FlowCreate) (newId now : Nat) :
    ApiState × Except ApiError Flow :=
  if c.projectId ∈ st.projects then
    let f : Flow :=
      { id := newId, projectId := c.projectId, flowType := c.flowType,
        prompt := c.prompt, status := .pending,
        parameters := c.parameters.getD [], priority := c.priority.getD 1,
        createdAt := now, startedAt := none, completedAt := none,
        result := none, error := none, executionTime := none }
    ({ st with flows := st.flows ++ [f],
               enqueued := st.enqueued ++ [(newId, c.projectId, c.prompt)] },
     .ok f)
  else
    (st, .error (.notFound "Project not found"))

/-- Endpoint `update_flow` (PUT /\x7bflow_id\x7d): 404 if absent, otherwise apply each
field of the body that is present — the status field included, with no
validation against any transition table — and commit. -/
def update_flow (st : ApiState) (flowId : Nat) (u : FlowUpdate) :
    ApiState × Except ApiError Flow :=
  match findFlow st.flows flowId with
  | none => (st, .error (.notFound "Flow not found"))
  | some f =>
    let f1 := match u.status with
      | some s => { f with status := s }
      | none => f
    let f2 := match u.parameters with
      | some p => { f1 with parameters := p }
      | none => f1
    let f3 := match u.priority with
      | some p => { f2 with priority := p }
      | none => f2
    ({ st with flows := setFlow st.flows f3 }, .ok f3)

/-- Endpoint `run_flow` (POST /\x7bflow_id\x7d/run): 404 if absent; 400 when the status
is `running` or `completed`; otherwise set status `running`, stamp
`started_at`, commit, and enqueue `run_flow_task`. -/
def run_flow (st : ApiState) (flowId now : Nat) :
    ApiState × Except ApiError String :=
  match findFlow st.flows flowId with
  | none => (st, .error (.notFound "Flow not found"))
  | some f =>
    if f.status = .running ∨ f.status = .completed then
      (st, .error (.badRequest "Flow is already running or completed"))
    else
      let f' := { f with status := FlowStatus.running, startedAt := some now }
      ({ st with flows := setFlow st.flows f',
                 enqueued := st.enqueued ++ [(f'.id, f'.projectId, f'.prompt)] },
       .ok "Flow execution started")

/-- Endpoint `cancel_flow` (POST /\x7bflow_id\x7d/cancel): 404 if absent; 400 whenever the
status differs from `running`; otherwise set status `cancelled` and
commit.  No timestamp is written. -/
def cancel_flow (st : ApiState) (flowId : Nat) :
    ApiState × Except ApiError String :=
  match findFlow st.flows flowId with
  | none => (st, .error (.notFound "Flow not found"))
  | some f =>
    if f.status ≠ FlowStatus.running then
      (st, .error (.badRequest "Flow is not running"))
    else
      ({ st with flows := setFlow st.flows { f with status := FlowStatus.cancelled } },
       .ok "Flow cancelled successfully")

/-! ## Celery worker (`apps/api/worker/celery_worker.py`)

Each stage task wraps its body in `try/except`: the external call
`generate_content(prompt)` is the only operation that can raise, so the
task is a total function of the generation oracle.  `.ok text` models a
returned string, `.error msg` models a raised exception whose `str(e)`
is `msg`. -/

/-- Generation oracle: outcome of `generate_content` per prompt. -/
abbrev Gen : Type := String → Except String String

/-- The dictionary a stage task returns: always carries `task_id` and
`status`; `result.content` on success, `error` on failure. -/
structure StageOutcome where
  taskId : String
  flowId : Nat
  projectId : Nat
  status : String
  content : Option String
  error : Option String
deriving DecidableEq, Repr

/-- The `strategy_prompt` f-string of `run_strategy_task` (whitespace
normalised). -/
def strategyPrompt (prompt : String) : String :=
  "As a DevRel strategy expert, analyze the following request and provide a comprehensive strategy: Request: "
    ++ prompt
    ++ " Please provide: 1. Strategic overview 2. Key objectives 3. Target audience analysis 4. Success metrics 5. Implementation timeline"

/-- The `content_prompt` f-string of `run_content_task`. -/
def contentPrompt (context : String) : String :=
  "As a DevRel content creator, create engaging content based on the following context: Context: "
    ++ context
    ++ " Please create: 1. Blog post outline 2. Social media content ideas 3. Newsletter content 4. Video script outline 5. Content calendar suggestions"

/-- The `community_prompt` f-string of `run_community_task`. -/
def communityPrompt (context : String) : String :=
  "As a DevRel community manager, create community engagement strategies based on: Content Context: "
    ++ context
    ++ " Please provide: 1. Community engagement tactics 2. Event ideas 3. Partnership opportunities 4. Community building activities 5. Feedback collection methods"

/-- The `analytics_prompt` f-string of `run_analytics_task`. -/
def analyticsPrompt (context : String) : String :=
  "As a DevRel analytics expert, provide measurement strategies for: Community Context: "
    ++ context
    ++ " Please provide: 1. Key performance indicators 2. Measurement tools and methods 3. Reporting templates 4. Data collection strategies 5. Success benchmarks"

/-- Context threading `if prev_result and prev_result.get("result"): context =
prev_result["result"]["content"]` — a failed predecessor carries no
`result` key, so the context stays the empty string. -/
def contextOf (prev : StageOutcome) : String :=
  match prev.content with
  | some c => c
  | none => ""

/-- Stage task `run_strategy_task`: build the strategy prompt, call the generator;
on an exception return the failed dictionary instead of raising. -/
def run_strategy_task (gen : Gen) (flowId projectId : Nat) (prompt : String) :
    StageOutcome :=
  match gen (strategyPrompt prompt) with
  | .ok c =>
    { taskId := "strategy", flowId := flowId, projectId := projectId,
      status := "completed", content := some c, error := none }
  | .error e =>
    { taskId := "strategy", flowId := flowId, projectId := projectId,
      status := "failed", content := none, error := some e }

/-- Stage task `run_content_task`: context from the strategy result (empty when it
failed), then the same catch-and-return shape. -/
def run_content_task (gen : Gen) (flowId projectId : Nat)
    (strategyResult : StageOutcome) : StageOutcome :=
  match gen (contentPrompt (contextOf strategyResult)) with
  | .ok c =>
    { taskId := "content", flowId := flowId, projectId := projectId,
      status := "completed", content := some c, error := none }
  | .error e =>
    { taskId := "content", flowId := flowId, projectId := projectId,
      status := "failed", content := none, error := some e }

/-- Stage task `run_community_task`. -/
def run_community_task (gen : Gen) (flowId projectId : Nat)
    (contentResult : StageOutcome) : StageOutcome :=
  match gen (communityPrompt (contextOf contentResult)) with
  | .ok c =>
    { taskId := "community", flowId := flowId, projectId := projectId,
      status := "completed", content := some c, error := none }
  | .error e =>
    { taskId := "community", flowId := flowId, projectId := projectId,
      status := "failed", content := none, error := some e }

/-- Stage task `run_analytics_task`. -/
def run_analytics_task (gen : Gen) (flowId projectId : Nat)
    (communityResult : StageOutcome) : StageOutcome :=
  match gen (analyticsPrompt (contextOf communityResult)) with
  | .ok c =>
    { taskId := "analytics", flowId := flowId, projectId := projectId,
      status := "completed", content := some c, error := none }
  | .error e =>
    { taskId := "analytics", flowId := flowId, projectId := projectId,
      status := "failed", content := none, error := some e }

/-- Registry `active_connections : Dict[str, List[WebSocket]]`. -/
abbrev Registry : Type := List (String × List Nat)

/-- Read access `channel in dict` / `dict[channel]`. -/
def lookupChannel : Registry → String → Option (List Nat)
  | [], _ => none
  | p :: rest, ch => if p.1 = ch then some p.2 else lookupChannel rest ch

/-- Assignment `dict[channel] = l`: replace the value at an existing key. -/
def setChannel : Registry → String → List Nat → Registry
  | [], _, _ => []
  | p :: rest, ch, v => if p.1 = ch then (ch, v) :: rest else p :: setChannel rest ch v

/-- Deletion `del dict[channel]`. -/
def removeChannel : Registry → String → Registry
  | [], _ => []
  | p :: rest, ch => if p.1 = ch then rest else p :: removeChannel rest ch

/-- Method `ConnectionManager.connect`: create the channel entry if absent, then
append the websocket to the channel's list. -/
def connectWs (r : Registry) (ws : Nat) (channel : String) : Registry :=
  match lookupChannel r channel with
  | none => r ++ [(channel, [ws])]
  | some l => setChannel r channel (l ++ [ws])

/-- Method `ConnectionManager.disconnect`: remove the websocket from the
channel's list when present, and delete the channel entry once the list
is empty. -/
def disconnectWs (r : Registry) (ws : Nat) (channel : String) : Registry :=
  match lookupChannel r channel with
  | none => r
  | some l =>
    let l' := l.erase ws
    if l' = [] then removeChannel r channel else setChannel r channel l'

/-- The `for connection in self.active_connections[channel]` loop of
`broadcast_to_channel`, whose body calls `list.remove(connection)` on a
failed send.  CPython's list iterator keeps an index `k` into the live
list object: it yields element `k` and then advances to `k + 1`, while
`remove` shifts every later element one slot left; the loop therefore
skips the element that follows a removed one.  The first component of
the result is the list object after the loop, the second the
connections whose `send_text` succeeded.  `fuel` only bounds the number
of iterator steps: the caller passes the list's length, which the index
reaches before the fuel runs out (each step raises `k` by one and never
lengthens the list), so the fuel-exhausted branch returns the same
value as normal loop exit. -/
def broadcastLoop (alive : Nat → Bool) : Nat → List Nat → Nat → List Nat × List Nat
  | 0, l, _ => (l, [])
  | fuel + 1, l, k =>
    if h : k < l.length then
      let x := l.get ⟨k, h⟩
      if alive x then
        let p := broadcastLoop alive fuel l (k + 1)
        (p.1, x :: p.2)
      else
        broadcastLoop alive fuel (l.erase x) (k + 1)
    else (l, [])

/-- Method `ConnectionManager.broadcast_to_channel`: nothing happens when the
channel is not registered; otherwise the send loop runs over the
channel's list, mutating it in place (the entry stays even when the
loop empties it). -/
def broadcast_to_channel (alive : Nat → Bool) (r : Registry) (channel : String) :
    Registry × List Nat :=
  match lookupChannel r channel with
  | none => (r, [])
  | some l =>
    let p := broadcastLoop alive l.length l 0
    (setChannel r channel p.1, p.2)

/-- An inbound client message after `json.loads`: the `type` field the
relay loop inspects. -/
structure ClientMsg where
  type : String
deriving DecidableEq, Repr

/-- A message the relay loop sends to its client during one iteration. -/
inductive OutMsg where
  | relayed (data : String)
  | pong
deriving DecidableEq, Repr

/-- One iteration of the `while True` relay loop of `flow_websocket`:
forward a pending Redis message if any, then handle a pending client
message if any — a `"ping"` gets one `"pong"` reply, any other type
falls through the `if` with no reply. -/
def relayIteration (busMsg : Option String) (inbound : Option ClientMsg) :
    List OutMsg :=
  (match busMsg with
   | some d => [OutMsg.relayed d]
   | none => []) ++
  (match inbound with
   | some m => if m.type = "ping" then [OutMsg.pong] else []
   | none => [])

/-! ## Concrete fixtures and invariants -/

/-- A flow whose pipeline has already completed (terminal state). -/
def exCompletedFlow : Flow :=
  { id := 1, projectId := 10, flowType := "devrel_strategy", prompt := "p",
    status := .completed, parameters := [], priority := 1, createdAt := 0,
    startedAt := some 1, completedAt := some 2, result := some "r",
    error := none, executionTime := some 1 }

/-- A freshly created flow, still `pending`. -/
def exPendingFlow : Flow :=
  { id := 2, projectId := 10, flowType := "content_generation", prompt := "q",
    status := .pending, parameters := [], priority := 1, createdAt := 0,
    startedAt := none, completedAt := none, result := none, error := none,
    executionTime := none }

/-- A flow currently `running`. -/
def exRunningFlow : Flow :=
  { id := 3, projectId := 10, flowType := "devrel_strategy", prompt := "p",
    status := .running, parameters := [], priority := 1, createdAt := 0,
    startedAt := some 1, completedAt := none, result := none, error := none,
    executionTime := none }

/-- Store holding only the completed flow. -/
def exStateCompleted : ApiState :=
  { projects := [10], flows := [exCompletedFlow], enqueued := [] }

/-- Store holding only the pending flow. -/
def exStatePending : ApiState :=
  { projects := [10], flows := [exPendingFlow], enqueued := [] }

/-- Store holding only the running flow. -/
def exStateRunning : ApiState :=
  { projects := [10], flows := [exRunningFlow], enqueued := [] }

/-- Invariant claimed of the connection registry: every channel present
maps to at least one connection. -/
def channelsNonempty (r : Registry) : Prop := ∀ p ∈ r, p.2 ≠ []

/-! ## Helper lemmas -/

/-- A flow found by primary key carries that key. -/
theorem findFlow_id {l : List Flow} {i : Nat} {f : Flow}
    (h : findFlow l i = some f) : f.id = i := by
  induction l with
  | nil => exact absurd h (by simp [findFlow])
  | cons g rest ih =>
    simp only [findFlow] at h
    by_cases hg : g.id = i
    · rw [if_pos hg] at h
      injection h with h2
      subst h2
      exact hg
    · rw [if_neg hg] at h
      exact ih h

/-- Replacing the row with key `i` makes the subsequent lookup of `i`
return the replacement. -/
theorem findFlow_setFlow {l : List Flow} {i : Nat} {f f' : Flow}
    (h : findFlow l i = some f) (hid : f'.id = i) :
    findFlow (setFlow l f') i = some f' := by
  induction l with
  | nil => exact absurd h (by simp [findFlow])
  | cons g rest ih =>
    simp only [findFlow] at h
    by_cases hg : g.id = i
    · simp only [setFlow]
      rw [if_pos (hg.trans hid.symm)]
      simp only [findFlow]
      rw [if_pos hid]
    · rw [if_neg hg] at h
      simp only [setFlow]
      rw [if_neg (fun hh => hg (hh.trans hid))]
      simp only [findFlow]
      rw [if_neg hg]
      exact ih h

/-- Writing back the exact value a key already holds leaves the dict
unchanged. -/
theorem setChannel_lookup_self {r : Registry} {ch : String} {v : List Nat}
    (h : lookupChannel r ch = some v) : setChannel r ch v = r := by
  induction r with
  | nil => rfl
  | cons p rest ih =>
    simp only [lookupChannel] at h
    simp only [setChannel]
    by_cases hp : p.1 = ch
    · rw [if_pos hp] at h
      injection h with hv
      rw [if_pos hp, ← hp, ← hv, Prod.mk.eta]
    · rw [if_neg hp] at h
      rw [if_neg hp, ih h]

/-- Membership after a dict assignment: either an untouched entry or the
assigned one. -/
theorem mem_setChannel {r : Registry} {ch : String} {v : List Nat}
    {p : String × List Nat} (h : p ∈ setChannel r ch v) :
    p ∈ r ∨ p = (ch, v) := by
  induction r with
  | nil => exact absurd h (by simp [setChannel])
  | cons q rest ih =>
    simp only [setChannel] at h
    by_cases hq : q.1 = ch
    · rw [if_pos hq] at h
      rcases List.mem_cons.mp h with h1 | h2
      · exact Or.inr h1
      · exact Or.inl (List.mem_cons_of_mem _ h2)
    · rw [if_neg hq] at h
      rcases List.mem_cons.mp h with h1 | h2
      · exact Or.inl (h1 ▸ List.mem_cons_self _ _)
      · rcases ih h2 with h3 | h4
        · exact Or.inl (List.mem_cons_of_mem _ h3)
        · exact Or.inr h4

/-- Deleting a key only removes entries. -/
theorem mem_removeChannel {r : Registry} {ch : String}
    {p : String × List Nat} (h : p ∈ removeChannel r ch) : p ∈ r := by
  induction r with
  | nil => exact absurd h (by simp [removeChannel])
  | cons q rest ih =>
    simp only [removeChannel] at h
    by_cases hq : q.1 = ch
    · rw [if_pos hq] at h
      exact List.mem_cons_of_mem _ h
    · rw [if_neg hq] at h
      rcases List.mem_cons.mp h with h1 | h2
      · exact h1 ▸ List.mem_cons_self _ _
      · exact List.mem_cons_of_mem _ (ih h2)

/-- An absent key looks up to `none`. -/
theorem lookupChannel_eq_none {r : Registry} {ch : String}
    (h : ch ∉ r.map Prod.fst) : lookupChannel r ch = none := by
  induction r with
  | nil => rfl
  | cons q rest ih =>
    simp only [List.map_cons, List.mem_cons] at h
    push_neg at h
    simp only [lookupChannel]
    rw [if_neg (fun hq => h.1 hq.symm)]
    exact ih h.2

/-- With the dict's unique keys, deleting a key makes its lookup fail. -/
theorem lookupChannel_removeChannel {r : Registry} {ch : String}
    (hk : (r.map Prod.fst).Nodup) :
    lookupChannel (removeChannel r ch) ch = none := by
  induction r with
  | nil => rfl
  | cons q rest ih =>
    simp only [List.map_cons, List.nodup_cons] at hk
    simp only [removeChannel]
    by_cases hq : q.1 = ch
    · rw [if_pos hq]
      exact lookupChannel_eq_none (hq ▸ hk.1)
    · rw [if_neg hq]
      simp only [lookupChannel]
      rw [if_neg hq]
      exact ih hk.2

/-- Each branch of `run_strategy_task` labels its dictionary. -/
theorem run_strategy_task_taskId (gen : Gen) (fid pid : Nat) (p : String) :
    (run_strategy_task gen fid pid p).taskId = "strategy" := by
  cases hg : gen (strategyPrompt p) <;> simp [run_strategy_task, hg]

/-- Each branch of `run_content_task` labels its dictionary. -/
theorem run_content_task_taskId (gen : Gen) (fid pid : Nat)
    (prev : StageOutcome) :
    (run_content_task gen fid pid prev).taskId = "content" := by
  cases hg : gen (contentPrompt (contextOf prev)) <;>
    simp [run_content_task, hg]

/-- Each branch of `run_community_task` labels its dictionary. -/
theorem run_community_task_taskId (gen : Gen) (fid pid : Nat)
    (prev : StageOutcome) :
    (run_community_task gen fid pid prev).taskId = "community" := by
  cases hg : gen (communityPrompt (contextOf prev)) <;>
    simp [run_community_task, hg]

/-- Each branch of `run_analytics_task` labels its dictionary. -/
theorem run_analytics_task_taskId (gen : Gen) (fid pid : Nat)
    (prev : StageOutcome) :
    (run_analytics_task gen fid pid prev).taskId = "analytics" := by
  cases hg : gen (analyticsPrompt (contextOf prev)) <;>
    simp [run_analytics_task, hg]

/-- C1 counterexample: the claim says every attempt to change a terminal
flow's status through the update endpoint fails with `InvalidTransition`
and leaves the status unchanged.  On a `completed` flow, `update_flow`
with body `status=running` instead succeeds and the stored status
becomes `running`. -/
theorem C1_counterexample :
    (update_flow exStateCompleted 1
        { status := some .running, parameters := none, priority := none }).2
      = .ok { exCompletedFlow with status := FlowStatus.running } ∧
    findFlow (update_flow exStateCompleted 1
        { status := some .running, parameters := none, priority := none }).1.flows 1
      = some { exCompletedFlow with status := FlowStatus.running } := by
  exact ⟨rfl, rfl⟩

/-- C1 amended: the endpoints perform no transition-table validation.
`update_flow` applies any requested status — terminal source states
included — and commits it; `run_flow` fails (HTTP 400, not an
`InvalidTransition` distinct from it) exactly when the status is
`running` or `completed`, and from any other status, the terminal
`failed` and `cancelled` included, it succeeds and sets the status to
`running` with `started_at` stamped. -/
theorem C1_no_transition_validation (st : ApiState) (i t : Nat)
    (u : FlowUpdate) (f : Flow) (h : findFlow st.flows i = some f) :
    (∃ f', (update_flow st i u).2 = .ok f' ∧
        f'.status = u.status.getD f.status ∧
        findFlow (update_flow st i u).1.flows i = some f') ∧
    ((f.status = .running ∨ f.status = .completed) →
        run_flow st i t
          = (st, .error (.badRequest "Flow is already running or completed"))) ∧
    (¬(f.status = .running ∨ f.status = .completed) →
        (run_flow st i t).2 = .ok "Flow execution started" ∧
        findFlow (run_flow st i t).1.flows i
          = some { f with status := FlowStatus.running, startedAt := some t }) := by
  have hfid : f.id = i := findFlow_id h
  refine ⟨?_, ?_, ?_⟩
  · obtain ⟨us, up, upr⟩ := u
    simp only [update_flow, h]
    cases us <;> cases up <;> cases upr <;>
      exact ⟨_, rfl, rfl, findFlow_setFlow h hfid⟩
  · intro hs
    simp only [run_flow, h, if_pos hs]
  · intro hs
    constructor
    · simp only [run_flow, h, if_neg hs]
    · simp only [run_flow, h, if_neg hs]
      exact findFlow_setFlow h hfid

/-- C1 witness: on the concrete completed flow the run endpoint takes its
400 branch. -/
theorem C1_no_transition_validation_witness :
    run_flow exStateCompleted 1 5
      = (exStateCompleted,
         .error (.badRequest "Flow is already running or completed")) :=
  (C1_no_transition_validation exStateCompleted 1 5
      ⟨some .running, none, none⟩ exCompletedFlow rfl).2.1 (Or.inr rfl)

/-! ## Claim C4 — cancel endpoint -/

/-- C4 counterexample: the claim says cancel succeeds from `pending`.  On
a pending flow `cancel_flow` instead fails with a 400 error and changes
nothing. -/
theorem C4_counterexample :
    cancel_flow exStatePending 2
      = (exStatePending, .error (.badRequest "Flow is not running")) := by
  exact rfl

/-- C4 amended: cancel succeeds exactly when the flow's status is
`running` — a pending flow cannot be cancelled — and fails with a 400
error (`"Flow is not running"`) from every other status; on success only
the status changes to `cancelled` (in particular `started_at` and the
timestamps are untouched). -/
theorem C4_cancel_only_from_running (st : ApiState) (i : Nat) (f : Flow)
    (h : findFlow st.flows i = some f) :
    (f.status ≠ FlowStatus.running →
        cancel_flow st i = (st, .error (.badRequest "Flow is not running"))) ∧
    (f.status = FlowStatus.running →
        (cancel_flow st i).2 = .ok "Flow cancelled successfully" ∧
        findFlow (cancel_flow st i).1.flows i
          = some { f with status := FlowStatus.cancelled }) := by
  have hfid : f.id = i := findFlow_id h
  constructor
  · intro hs
    simp only [cancel_flow, h, if_pos hs]
  · intro hs
    have hns : ¬ f.status ≠ FlowStatus.running := by simp [hs]
    constructor
    · simp only [cancel_flow, h, if_neg hns]
    · simp only [cancel_flow, h, if_neg hns]
      exact findFlow_setFlow h hfid

/-- C4 witness: cancelling the concrete running flow succeeds. -/
theorem C4_cancel_only_from_running_witness :
    (cancel_flow exStateRunning 3).2 = .ok "Flow cancelled successfully" :=
  ((C4_cancel_only_from_running exStateRunning 3 exRunningFlow rfl).2 rfl).1

/-! ## Claim C10 — submit with unknown project -/

/-- C10: submitting a flow whose `project_id` matches no project fails
with the 404 "Project not found" error and returns the store unchanged —
no flow row is inserted and no Celery task is enqueued. -/
theorem C10_create_flow_requires_project (st : ApiState) (c : FlowCreate)
    (newId now : Nat) (h : c.projectId ∉ st.projects) :
    create_flow st c newId now = (st, .error (.notFound "Project not found")) := by
  simp only [create_flow, if_neg h]

/-- C10 witness: concrete submission against a store that only knows
project 10. -/
theorem C10_create_flow_requires_project_witness :
    create_flow exStatePending
      { projectId := 99, flowType := "devrel_strategy", prompt := "p",
        parameters := none, priority := none } 5 6
      = (exStatePending, .error (.notFound "Project not found")) :=
  C10_create_flow_requires_project _ _ _ _ (by decide)

/-! ## Claim C2 — failure does not halt the chain -/

/-- C5, the code evaluated at the failing input: channel `flow:F1` holds
connections 0 (already dead) and 1 (alive); `broadcast_to_channel`
prunes connection 0 from the registry, but — because `list.remove`
inside the `for` loop shifts the iterator past the next element — the
delivered list is empty: connection 1, although registered and alive,
never receives the message, contrary to the claim that every other
registered connection still receives it. -/
theorem C5_broadcast_skips_after_prune :
    broadcast_to_channel (fun c => c == 1) [("flow:F1", [0, 1])] "flow:F1"
      = ([("flow:F1", [1])], []) := by
  decide

/-! ## Claim C7 — no empty channel entry -/

/-- C7 counterexample: starting from the empty registry, one `connect`
followed by one `broadcast_to_channel` whose only subscriber is dead
leaves the channel mapped to the empty list — the pruning loop never
deletes an emptied channel entry, so the claimed invariant fails for
sequences that include broadcast. -/
theorem C7_counterexample :
    (broadcast_to_channel (fun _ => false)
        (connectWs [] 7 "flow:F1") "flow:F1").1
      = [("flow:F1", [])] := by
  decide

/-- C7 amended: the invariant holds for the `connect`/`disconnect`
operations alone: both preserve "every channel present has at least one
connection", and `disconnect` deletes the channel entry exactly when it
removes the last subscriber; `broadcast_to_channel`, however, can leave
an empty entry behind (see the counterexample). -/
theorem C7_connect_disconnect_keep_channels_nonempty (r : Registry)
    (ws : Nat) (ch : String) (h : channelsNonempty r)
    (hk : (r.map Prod.fst).Nodup) :
    channelsNonempty (connectWs r ws ch) ∧
    channelsNonempty (disconnectWs r ws ch) ∧
    (∀ l, lookupChannel r ch = some l → l.erase ws = [] →
        lookupChannel (disconnectWs r ws ch) ch = none) := by
  refine ⟨?_, ?_, ?_⟩
  · intro p hp
    unfold connectWs at hp
    cases hl : lookupChannel r ch with
    | none =>
      simp only [hl] at hp
      rcases List.mem_append.mp hp with h1 | h2
      · exact h p h1
      · simp only [List.mem_singleton] at h2
        subst h2
        simp
    | some l =>
      simp only [hl] at hp
      rcases mem_setChannel hp with h1 | h2
      · exact h p h1
      · subst h2
        simp
  · intro p hp
    unfold disconnectWs at hp
    cases hl : lookupChannel r ch with
    | none =>
      simp only [hl] at hp
      exact h p hp
    | some l =>
      simp only [hl] at hp
      by_cases he : l.erase ws = []
      · rw [if_pos he] at hp
        exact h p (mem_removeChannel hp)
      · rw [if_neg he] at hp
        rcases mem_setChannel hp with h1 | h2
        · exact h p h1
        · subst h2
          exact he
  · intro l hl he
    unfold disconnectWs
    simp only [hl]
    rw [if_pos he]
    exact lookupChannel_removeChannel hk

/-- C7 witness: connecting a second client to a fresh channel of a
well-formed concrete registry keeps every channel nonempty. -/
theorem C7_connect_disconnect_keep_channels_nonempty_witness :
    channelsNonempty (connectWs [("agent:A1", [3])] 7 "flow:F1") :=
  (C7_connect_disconnect_keep_channels_nonempty [("agent:A1", [3])] 7
      "flow:F1" (by unfold channelsNonempty; decide) (by decide)).1

/-! ## Claim C8 — ping/pong in the relay loop -/

/-- C8: within one iteration of the flow relay loop, an inbound
`\x7b"type": "ping"\x7d` message produces exactly one pong reply, and any
other inbound message type produces no reply at all — the iteration
sends exactly what it would have sent had no client message arrived. -/
theorem C8_ping_pong (bus : Option String) (m : ClientMsg) :
    (m.type = "ping" →
        (relayIteration bus (some m)).count OutMsg.pong = 1) ∧
    (m.type ≠ "ping" →
        (relayIteration bus (some m)).count OutMsg.pong = 0 ∧
        relayIteration bus (some m) = relayIteration bus none) := by
  constructor
  · intro hm
    cases bus <;> simp [relayIteration, hm, List.count_cons]
  · intro hm
    cases bus <;> simp [relayIteration, hm, List.count_cons]

/-- C8 witness: a ping with no pending bus message yields one pong. -/
theorem C8_ping_pong_witness :
    (relayIteration none (some { type := "ping" })).count OutMsg.pong = 1 :=
  (C8_ping_pong none { type := "ping" }).1 rfl

/-! ## Claim C9 — broadcast to an empty channel -/

/-- C9: broadcasting on a channel with zero subscribers — one absent
from the registry, or one mapped to an empty list — returns normally,
delivers to nobody, buffers nothing, and leaves the registry exactly as
it was. -/
theorem C9_broadcast_no_subscribers (alive : Nat → Bool) (r : Registry)
    (ch : String)
    (h : lookupChannel r ch = none ∨ lookupChannel r ch = some []) :
    broadcast_to_channel alive r ch = (r, []) := by
  rcases h with h | h
  · simp only [broadcast_to_channel, h]
  · simp only [broadcast_to_channel, h, List.length_nil, broadcastLoop]
    rw [setChannel_lookup_self h]

/-- C9 witness: broadcasting on an unregistered channel of a concrete
registry is a no-op. -/
theorem C9_broadcast_no_subscribers_witness :
    broadcast_to_channel (fun _ => true) [("flow:F1", [7])] "agent:A2"
      = ([("flow:F1", [7])], []) :=
  C9_broadcast_no_subscribers (fun _ => true) [("flow:F1", [7])] "agent:A2"
    (Or.inl rfl)

end Vertex
